import Mathlib

/-! Orders management system: transaction manager and CreateOrder use case

A shallow embedding of

* `internal/app/transaction_manager/postgres/transaction_manager.go`
  (`runTransaction`, `GetQueryEngine`, the `With...` options, `defaultTxOptions`,
  `RunTransaction`),
* `internal/app/usecases/orders_management_system/create_order.go` (`CreateOrder`).

Go code with effects is embedded as a state transformer over a trace: the list of the
calls made so far to the database driver and to the collaborators of the use case,
oldest first.  The outside world (driver, collaborators) is a deterministic environment
that answers each call as a function of the call and of the trace before it.  A Go
function either returns or panics, so every embedded function yields an `Outcome`.
Driver calls themselves are taken to return (with or without an error), not to panic.
-/

namespace OMS

/-! ## Go values -/

/-- A non-nil Go `error` value.  A nil `error` is `none : Option GoError`. -/
inductive GoError where
  /-- an error value made outside the embedded code; `id` stands for its identity -/
  | foreign (id : Nat) (msg : String)
  /-- the value `fmt.Errorf` returns for a format without `%w`: only its text -/
  | errorf (text : String)
  /-- the value `pkgerrors.Wrap api cause` returns -/
  | wrapped (api : String) (cause : GoError)
deriving DecidableEq, Repr

/-- The method `Error()`: the text `%v` prints for an error.  The text of a wrapped
error is the name of the wrapping operation followed by the text of its cause. -/
def GoError.Error : GoError → String
  | .foreign _ msg => msg
  | .errorf text => text
  | .wrapped api cause => api ++ ": " ++ cause.Error

/-- Modelled from the spec: `pkgerrors.Wrap` (package `pkg/errors` is not among the
sources).  The orchestrator "wraps again with the use case name; no error is
swallowed": the result is a non-nil error that carries the name and the cause. -/
def pkgerrors.Wrap (api : String) (err : GoError) : GoError :=
  .wrapped api err

/-- A value given to `panic`, as `recover()` hands it back (never nil). -/
inductive PanicValue where
  | str (s : String)
  | err (e : GoError)
deriving DecidableEq, Repr

/-- The text `%v` prints for a recovered panic value. -/
def PanicValue.format : PanicValue → String
  | .str s => s
  | .err e => e.Error

/-- How a Go call ends: it returns a value, or it panics. -/
inductive Outcome (α : Type) where
  | returned (a : α)
  | panicked (v : PanicValue)
deriving DecidableEq, Repr

/-! ## pgx transaction options -/

/-- The isolation levels `pgx.TxIsoLevel` names. -/
inductive pgx.TxIsoLevel where
  | Serializable | RepeatableRead | ReadCommitted | ReadUncommitted
deriving DecidableEq, Repr

/-- The access modes `pgx.TxAccessMode` names. -/
inductive pgx.TxAccessMode where
  | ReadWrite | ReadOnly
deriving DecidableEq, Repr

/-- The deferrable modes `pgx.TxDeferrableMode` names. -/
inductive pgx.TxDeferrableMode where
  | Deferrable | NotDeferrable
deriving DecidableEq, Repr

/-- The fields of `pgx.TxOptions` the transaction manager sets. -/
structure pgx.TxOptions where
  IsoLevel : pgx.TxIsoLevel
  AccessMode : pgx.TxAccessMode
  DeferrableMode : pgx.TxDeferrableMode
deriving DecidableEq, Repr

/-! ## Connections, transactions, contexts -/

/-- A `*postgres.Connection`; `id` stands for the pointer. -/
structure Connection where
  id : Nat
deriving DecidableEq, Repr

/-- A `*postgres.Transaction`; `id` stands for the pointer. -/
structure Transaction where
  id : Nat
deriving DecidableEq, Repr

/-- Keys of context values.  `txKey` is the constant of the unexported type `key`;
every other key is `foreign`. -/
inductive key where
  | txKey
  | foreign (name : String)
deriving DecidableEq, Repr

/-- A value of type `any` stored in a context: a `*postgres.Transaction`, or a value of
some other dynamic type (which is neither a transaction nor a query engine). -/
inductive AnyValue where
  | transaction (tx : Transaction)
  | other (tag : Nat)
deriving DecidableEq, Repr

/-- A `context.Context`, as far as values go: the bindings made by `WithValue`, the most
recent first, over an empty background context. -/
structure Context where
  bindings : List (key × AnyValue)
deriving DecidableEq, Repr

/-- The background context `context.Background()`: no values. -/
def Context.Background : Context := ⟨[]⟩

/-- The derived context `context.WithValue(ctx, k, v)`. -/
def Context.WithValue (ctx : Context) (k : key) (v : AnyValue) : Context :=
  ⟨(k, v) :: ctx.bindings⟩

/-- The lookup `ctx.Value(k)`: the most recent binding of `k`, `none` for nil. -/
def Context.Value (ctx : Context) (k : key) : Option AnyValue :=
  (ctx.bindings.find? (fun b => b.1 = k)).map (fun b => b.2)

/-- Modelled from the spec: the interface `QueryEngine` (declared in a file that is not
among the sources), "implemented identically by the raw Connection Provider and by a
Transaction Handle". -/
inductive QueryEngine where
  | connection (c : Connection)
  | transaction (tx : Transaction)
deriving DecidableEq, Repr

/-- The type assertion `v.(*postgres.Transaction)` on a context value (`none` is the nil
interface): the pointer when it holds. -/
def asTransaction : Option AnyValue → Option Transaction
  | some (.transaction tx) => some tx
  | _ => none

/-- The type assertion `v.(QueryEngine)` on a context value: a `*postgres.Transaction`
has the methods of a query engine. -/
def asQueryEngine : Option AnyValue → Option QueryEngine
  | some (.transaction tx) => some (.transaction tx)
  | _ => none

/-- The Transaction Handle a scope carries: the outcome of the test
`ctx.Value(txKey).(*postgres.Transaction)` that `runTransaction` makes. -/
def activeTx (ctx : Context) : Option Transaction :=
  asTransaction (ctx.Value key.txKey)

/-! ## Domain models (package `models` is not among the sources) -/

/-- Modelled from the spec: `models.UserID`, the identity of the owning user. -/
abbrev UserID := Nat

/-- Modelled from the spec: `models.OrderID`, a unique identifier. -/
abbrev OrderID := Nat

/-- Modelled from the spec: `models.Item`, a line item (item identity and quantity). -/
structure Item where
  ID : Nat
  Quantity : Nat
deriving DecidableEq, Repr

/-- Modelled from the spec: `models.Order`, with the four fields `CreateOrder` fills. -/
structure Order where
  ID : OrderID
  UserID : UserID
  Items : List Item
  DeliveryOrderInfo : String
deriving DecidableEq, Repr

/-- Modelled from the spec: `CreateOrderInfo`, with the two fields `CreateOrder` reads. -/
structure CreateOrderInfo where
  Items : List Item
  DeliveryOrderInfo : String
deriving DecidableEq, Repr

/-! ## Traces and programs -/

/-- One call made to the driver or to a collaborator of the use case. -/
inductive Event where
  | BeginTx (conn : Connection) (ctx : Context) (txOpts : pgx.TxOptions)
  | Commit (tx : Transaction) (ctx : Context)
  | Rollback (tx : Transaction) (ctx : Context)
  | ReserveStocks (ctx : Context) (userID : UserID) (items : List Item)
  | CreateOrder (ctx : Context) (order : Order)
  | CreateOutboxMessage (ctx : Context) (order : Order)
  | DeleteItems (ctx : Context) (userID : UserID) (items : List Item)
  /-- an operation records that it was invoked with scope `ctx` -/
  | invoked (ctx : Context)
deriving DecidableEq, Repr

/-- The calls made so far, oldest first. -/
abbrev Trace := List Event

/-- A Go computation: from the trace before it to its outcome and the trace after it. -/
abbrev Prog (α : Type) := Trace → Outcome α × Trace

/-- The type `func(txCtx context.Context) error` of a unit of work. -/
abbrev Operation := Context → Prog (Option GoError)

/-- The database driver as an environment: its answer to `BeginTx`, `Commit` and
`Rollback`, given the call and the trace before the call. -/
structure Driver where
  BeginTx : Connection → Context → pgx.TxOptions → Trace → Except GoError Transaction
  Commit : Transaction → Context → Trace → Option GoError
  Rollback : Transaction → Context → Trace → Option GoError

/-! ## The transaction manager -/

/-- The struct `TransactionManager`. -/
structure TransactionManager where
  connection : Connection
deriving DecidableEq, Repr

/-- The type `TransactionOption` (`func(x any)`), applied to a `*pgx.TxOptions`: what it
does to the options value. -/
abbrev TransactionOption := pgx.TxOptions → pgx.TxOptions

/-- The deferred function of `runTransaction`, run when the body `fn(txCtx)` has ended
with outcome `body.1` and trace `body.2`: recover, commit when there is no error, roll
back on any error.  It assigns the named result `err`, so the call returns. -/
def runTransaction_deferred (d : Driver) (tx : Transaction) (ctx : Context)
    (body : Outcome (Option GoError) × Trace) : Outcome (Option GoError) × Trace :=
  -- recover from panic
  let err0 : Option GoError :=
    match body.1 with
    | .panicked r => some (.errorf ("panic recovered: " ++ r.format))
    | .returned err => err
  -- if func(ctx context.Context) error didn't return error - commit
  let afterCommit : Option GoError × Trace :=
    match err0 with
    | none =>
      match d.Commit tx ctx body.2 with
      | none => (none, body.2 ++ [Event.Commit tx ctx])
      | some c => (some (.errorf ("commit failed: " ++ c.Error)), body.2 ++ [Event.Commit tx ctx])
    | some e => (some e, body.2)
  -- rollback on any error
  match afterCommit.1 with
  | none => (.returned none, afterCommit.2)
  | some e =>
    match d.Rollback tx ctx afterCommit.2 with
    | none => (.returned (some e), afterCommit.2 ++ [Event.Rollback tx ctx])
    | some r =>
      (.returned (some (.errorf ("rollback failed: " ++ r.Error))),
        afterCommit.2 ++ [Event.Rollback tx ctx])

/-- The method `runTransaction`. -/
def TransactionManager.runTransaction (d : Driver) (m : TransactionManager) (ctx : Context)
    (txOpts : pgx.TxOptions) (fn : Operation) : Prog (Option GoError) := fun h =>
  -- nested transaction: skip initiating a new one
  match asTransaction (ctx.Value key.txKey) with
  | some _ => fn ctx h
  | none =>
    match d.BeginTx m.connection ctx txOpts h with
    | .error e =>
      (.returned (some (.errorf ("can't begin transaction: " ++ e.Error))),
        h ++ [Event.BeginTx m.connection ctx txOpts])
    | .ok tx =>
      let txCtx := ctx.WithValue key.txKey (.transaction tx)
      runTransaction_deferred d tx ctx (fn txCtx (h ++ [Event.BeginTx m.connection ctx txOpts]))

/-- The method `GetQueryEngine`. -/
def TransactionManager.GetQueryEngine (m : TransactionManager) (ctx : Context) : QueryEngine :=
  match asQueryEngine (ctx.Value key.txKey) with
  | some tx => tx
  | none => .connection m.connection

/-- The option `WithIsoLevel`. -/
def WithIsoLevel (lvl : pgx.TxIsoLevel) : TransactionOption :=
  fun opts => { opts with IsoLevel := lvl }

/-- The option `WithAccessMode`. -/
def WithAccessMode (mode : pgx.TxAccessMode) : TransactionOption :=
  fun opts => { opts with AccessMode := mode }

/-- The option `WithDeferrableMode`. -/
def WithDeferrableMode (mode : pgx.TxDeferrableMode) : TransactionOption :=
  fun opts => { opts with DeferrableMode := mode }

/-- Modelled from the spec: the package constant `ReadWrite` (declared in a file that is
not among the sources), the "read-write access" mode. -/
def ReadWrite : pgx.TxAccessMode := .ReadWrite

/-- The variable `defaultTxOptions`. -/
def defaultTxOptions : pgx.TxOptions :=
  { IsoLevel := .ReadCommitted
    AccessMode := ReadWrite
    DeferrableMode := .Deferrable }

/-- The options `RunTransaction` begins with: `defaultTxOptions`, then every option
applied in turn. -/
def txOptionsOf (opts : List TransactionOption) : pgx.TxOptions :=
  opts.foldl (fun o opt => opt o) defaultTxOptions

/-- The method `RunTransaction`. -/
def TransactionManager.RunTransaction (d : Driver) (m : TransactionManager) (ctx : Context)
    (fn : Operation) (opts : List TransactionOption) : Prog (Option GoError) :=
  let txOptions := txOptionsOf opts
  m.runTransaction d ctx txOptions fn

/-- The scope `txCtx` that `runTransaction` derives for the transaction `tx` it began. -/
abbrev txScope (ctx : Context) (tx : Transaction) : Context :=
  ctx.WithValue key.txKey (.transaction tx)

/-- The trace right after `RunTransaction`, called with `opts` at trace `h`, has called
`BeginTx`. -/
abbrev begun (m : TransactionManager) (ctx : Context) (opts : List TransactionOption)
    (h : Trace) : Trace :=
  h ++ [Event.BeginTx m.connection ctx (txOptionsOf opts)]

/-! ## Chains of nested calls -/

/-- A chain of nested `RunTransaction` calls, one per element of `optss` (the options
of that level), outermost first: the operation of each level calls `RunTransaction` with
the scope it received and returns what that call returns; the innermost call runs
`inner`. -/
def nestedChain (d : Driver) (m : TransactionManager) :
    List (List TransactionOption) → Operation → Operation
  | [], inner => inner
  | opts :: rest, inner => fun ctx => m.RunTransaction d ctx (nestedChain d m rest inner) opts

/-- Whether a call opens or closes a transaction. -/
def Event.isLifecycle : Event → Bool
  | .BeginTx _ _ _ => true
  | .Commit _ _ => true
  | .Rollback _ _ => true
  | _ => false

/-- The calls of a trace that open or close a transaction. -/
def lifecycle (h : Trace) : Trace :=
  h.filter Event.isLifecycle

/-- Whether a call is `BeginTx`. -/
def Event.isBegin : Event → Bool
  | .BeginTx _ _ _ => true
  | _ => false

/-- Whether a call is `Commit` or `Rollback` on `tx`. -/
def Event.isRelease (tx : Transaction) : Event → Bool
  | .Commit t _ => decide (t = tx)
  | .Rollback t _ => decide (t = tx)
  | _ => false

/-- The number of `BeginTx` calls in a trace. -/
def countBegin (h : Trace) : Nat :=
  h.countP Event.isBegin

/-- The number of `Commit` and `Rollback` calls on `tx` in a trace. -/
def countRelease (tx : Transaction) (h : Trace) : Nat :=
  h.countP (Event.isRelease tx)

/-- An operation that records the scope it is invoked with and then runs `fn`. -/
def recording (fn : Operation) : Operation :=
  fun ctx h => fn ctx (h ++ [Event.invoked ctx])

/-! ## The use case -/

/-- The dependencies `Deps` of the use case.  The three storage calls and the
reservation call are answered by the environment, given the call and the trace before
it; `uuidNew` is `uuid.New()`; `RunTransaction` is the method of the interface
`transaction_manager.TransactionManager`. -/
structure Deps where
  RunTransaction : Context → Operation → List TransactionOption → Prog (Option GoError)
  ReserveStocks : Context → UserID → List Item → Trace → Outcome (Option GoError)
  CreateOrder : Context → Order → Trace → Outcome (Option GoError)
  CreateOutboxMessage : Context → Order → Trace → Outcome (Option GoError)
  DeleteItems : Context → UserID → List Item → Trace → Outcome (Option GoError)
  uuidNew : Trace → OrderID

/-- The constant `api` of `CreateOrder`. -/
def usecase.api : String := "orders_management_system.usecase.CreateOrder"

/-- The function literal `CreateOrder` hands to `RunTransaction` (the transaction
scope): insert the order, insert the outbox message, delete the cart items, returning
at the first error. -/
def usecase.CreateOrder_fn (oms : Deps) (order : Order) (userID : UserID)
    (info : CreateOrderInfo) : Operation := fun txCtx h =>
  let h1 := h ++ [Event.CreateOrder txCtx order]
  match oms.CreateOrder txCtx order h with
  | .panicked v => (.panicked v, h1)
  | .returned (some err) => (.returned (some err), h1)
  | .returned none =>
    let h2 := h1 ++ [Event.CreateOutboxMessage txCtx order]
    match oms.CreateOutboxMessage txCtx order h1 with
    | .panicked v => (.panicked v, h2)
    | .returned (some err) => (.returned (some err), h2)
    | .returned none =>
      let h3 := h2 ++ [Event.DeleteItems txCtx userID info.Items]
      match oms.DeleteItems txCtx userID info.Items h2 with
      | .panicked v => (.panicked v, h3)
      | .returned (some err) => (.returned (some err), h3)
      | .returned none => (.returned none, h3)

/-- The options `CreateOrder` hands to `RunTransaction`. -/
def usecase.txOptions : List TransactionOption :=
  [WithAccessMode .ReadWrite, WithIsoLevel .ReadCommitted, WithDeferrableMode .NotDeferrable]

/-- The order record `CreateOrder` forms, with a fresh identity. -/
def usecase.newOrder (oms : Deps) (userID : UserID) (info : CreateOrderInfo) (h : Trace) :
    Order :=
  { ID := oms.uuidNew h
    UserID := userID
    Items := info.Items
    DeliveryOrderInfo := info.DeliveryOrderInfo }

/-- The method `CreateOrder` of the use case; its two results are the `*models.Order`
(`none` for nil) and the error. -/
def usecase.CreateOrder (oms : Deps) (ctx : Context) (userID : UserID)
    (info : CreateOrderInfo) : Prog (Option Order × Option GoError) := fun h =>
  let order := usecase.newOrder oms userID info h
  let h1 := h ++ [Event.ReserveStocks ctx userID info.Items]
  match oms.ReserveStocks ctx userID info.Items h with
  | .panicked v => (.panicked v, h1)
  | .returned (some err) => (.returned (none, some (pkgerrors.Wrap usecase.api err)), h1)
  | .returned none =>
    match oms.RunTransaction ctx (usecase.CreateOrder_fn oms order userID info)
        usecase.txOptions h1 with
    | (.panicked v, h2) => (.panicked v, h2)
    | (.returned (some err), h2) =>
      (.returned (none, some (pkgerrors.Wrap usecase.api err)), h2)
    | (.returned none, h2) => (.returned (some order, none), h2)

/-! ## Concrete environments used to evaluate the code -/

/-- A driver whose every call succeeds; `BeginTx` hands out transaction 7. -/
def okDriver : Driver :=
  { BeginTx := fun _ _ _ _ => .ok ⟨7⟩
    Commit := fun _ _ _ => none
    Rollback := fun _ _ _ => none }

/-- A driver whose `Commit` fails and whose other calls succeed. -/
def commitFailDriver : Driver :=
  { BeginTx := fun _ _ _ _ => .ok ⟨7⟩
    Commit := fun _ _ _ => some (.foreign 1 "conn closed")
    Rollback := fun _ _ _ => none }

/-- A driver whose `Rollback` fails; its `Commit` fails too. -/
def rollbackFailDriver : Driver :=
  { BeginTx := fun _ _ _ _ => .ok ⟨7⟩
    Commit := fun _ _ _ => some (.foreign 1 "conn closed")
    Rollback := fun _ _ _ => some (.foreign 2 "tx is closed") }

/-- The transaction manager over connection 1. -/
def tm1 : TransactionManager := ⟨⟨1⟩⟩

/-- The dependencies as `main` wires them, the transaction manager being `m` over the
driver `d`, with fixed answers of the reservation call and of the three storage calls. -/
def wiredDeps (d : Driver) (m : TransactionManager)
    (reserve create outbox delete : Option GoError) : Deps :=
  { RunTransaction := fun ctx fn opts => m.RunTransaction d ctx fn opts
    ReserveStocks := fun _ _ _ _ => .returned reserve
    CreateOrder := fun _ _ _ => .returned create
    CreateOutboxMessage := fun _ _ _ => .returned outbox
    DeleteItems := fun _ _ _ _ => .returned delete
    uuidNew := fun h => h.length + 100 }

/-- A cart of two line items with a delivery address. -/
def info1 : CreateOrderInfo := ⟨[⟨1, 2⟩, ⟨2, 1⟩], "D"⟩

/-- The wiring of `main` in which the insert of the outbox message fails with `boom`. -/
def outboxFailDeps : Deps :=
  wiredDeps okDriver tm1 none none (some (.foreign 9 "boom")) none

/-- The order that `CreateOrder` forms for user 5 and cart `info1` at the empty trace. -/
def order1 : Order := ⟨100, 5, [⟨1, 2⟩, ⟨2, 1⟩], "D"⟩

/-- An operation that records its scope and returns nil. -/
def opOk : Operation := recording fun _ h => (.returned none, h)

/-- An operation that records its scope and returns the error `boom`. -/
def opFail : Operation := recording fun _ h => (.returned (some (.foreign 9 "boom")), h)

/-- An operation that records its scope and panics. -/
def opPanic : Operation := recording fun _ h => (.panicked (.str "oops"), h)

/-- A scope that carries the active transaction 3. -/
def ctxInTx : Context := Context.Background.WithValue key.txKey (.transaction ⟨3⟩)

/-! ## The query methods of a transaction (`pkg/postgres/transaction.go`) -/

/-- A Go value of type `interface{}` handed to the driver as a statement argument: a
number, a text, or a slice `[]interface{}` of such values. -/
inductive SqlValue where
  | int (n : Int)
  | text (s : String)
  | slice (xs : List SqlValue)

/-- The three results of `ToSql()`: the SQL text, the positional arguments
(`[]interface{}`) and the error. -/
structure ToSqlResult where
  query : String
  args : List SqlValue
  err : Option GoError

/-- Modelled from the spec: the interface `Sqlizer` (declared in a file that is not among
the sources), a "statement builder that yields SQL text plus positional arguments". -/
structure Sqlizer where
  ToSql : ToSqlResult

/-- A `pgconn.CommandTag`; `CommandTag{}` is the empty tag. -/
structure CommandTag where
  text : String
deriving DecidableEq, Repr

/-- One call that reaches the driver from a query method of a transaction, with the SQL
text and the list of variadic arguments as the callee receives it (one element per
positional parameter); `dest` stands for the destination pointer. -/
inductive SqlCall where
  /-- the call `pgxscan.Get(ctx, t.Tx, dest, query, args...)` -/
  | Get (tx : Transaction) (dest : Nat) (query : String) (params : List SqlValue)
  /-- the call `pgxscan.Select(ctx, t.Tx, dest, query, args...)` -/
  | Select (tx : Transaction) (dest : Nat) (query : String) (params : List SqlValue)
  /-- the call `t.Tx.Exec(ctx, query, args...)` -/
  | Exec (tx : Transaction) (query : String) (params : List SqlValue)

/-- The driver calls of the query methods made so far, oldest first. -/
abbrev SqlTrace := List SqlCall

/-- The driver below the query methods as an environment: its answer to each call, given
the call and the calls before it. -/
structure SqlDriver where
  Get : Transaction → Nat → String → List SqlValue → SqlTrace → Option GoError
  Select : Transaction → Nat → String → List SqlValue → SqlTrace → Option GoError
  Exec : Transaction → String → List SqlValue → SqlTrace → CommandTag × Option GoError

/-- The method `Transaction.Getx`.  The tracing span only observes the call and is left
out.  The arguments are spread: `args...`. -/
def Transaction.Getx (sd : SqlDriver) (t : Transaction) (dest : Nat) (sqlizer : Sqlizer)
    (h : SqlTrace) : Option GoError × SqlTrace :=
  match sqlizer.ToSql.err with
  | some err => (some err, h)
  | none =>
    (sd.Get t dest sqlizer.ToSql.query sqlizer.ToSql.args h,
      h ++ [SqlCall.Get t dest sqlizer.ToSql.query sqlizer.ToSql.args])

/-- The method `Transaction.Selectx`.  The tracing span only observes the call and is
left out.  The call is `pgxscan.Select(ctx, t.Tx, dest, query, args)`, without `...`: the
variadic parameter of the callee is the one-element list that holds the slice `args`. -/
def Transaction.Selectx (sd : SqlDriver) (t : Transaction) (dest : Nat) (sqlizer : Sqlizer)
    (h : SqlTrace) : Option GoError × SqlTrace :=
  match sqlizer.ToSql.err with
  | some err => (some err, h)
  | none =>
    (sd.Select t dest sqlizer.ToSql.query [SqlValue.slice sqlizer.ToSql.args] h,
      h ++ [SqlCall.Select t dest sqlizer.ToSql.query [SqlValue.slice sqlizer.ToSql.args]])

/-- The method `Transaction.Execx`.  The tracing span only observes the call and is left
out.  The arguments are spread: `args...`. -/
def Transaction.Execx (sd : SqlDriver) (t : Transaction) (sqlizer : Sqlizer)
    (h : SqlTrace) : (CommandTag × Option GoError) × SqlTrace :=
  match sqlizer.ToSql.err with
  | some err => ((⟨""⟩, some err), h)
  | none =>
    (sd.Exec t sqlizer.ToSql.query sqlizer.ToSql.args h,
      h ++ [SqlCall.Exec t sqlizer.ToSql.query sqlizer.ToSql.args])

/-- A driver below the query methods whose every call succeeds. -/
def okSqlDriver : SqlDriver :=
  { Get := fun _ _ _ _ _ => none
    Select := fun _ _ _ _ _ => none
    Exec := fun _ _ _ _ => (⟨"OK"⟩, none) }

/-- A statement builder that yields a query with two placeholders and two arguments. -/
def twoArgs : Sqlizer :=
  ⟨⟨"SELECT id FROM orders WHERE user_id = $1 AND status = $2",
    [.int 5, .text "new"], none⟩⟩

/-- A statement builder that fails with `bad builder`. -/
def failingBuilder : Sqlizer :=
  ⟨⟨"", [], some (.foreign 4 "bad builder")⟩⟩

/-! ## Lemmas on the transaction manager -/

/-- The scope derived for `tx` carries `tx`. -/
theorem activeTx_WithValue (ctx : Context) (tx : Transaction) :
    activeTx (ctx.WithValue key.txKey (.transaction tx)) = some tx := by
  simp [activeTx, asTransaction, Context.Value, Context.WithValue]

/-- On a scope that carries a transaction, `RunTransaction` is the operation itself. -/
theorem RunTransaction_nested (d : Driver) (m : TransactionManager) (ctx : Context)
    (tx : Transaction) (fn : Operation) (opts : List TransactionOption) (h : Trace)
    (hactive : activeTx ctx = some tx) :
    m.RunTransaction d ctx fn opts h = fn ctx h := by
  unfold activeTx at hactive
  simp [TransactionManager.RunTransaction, TransactionManager.runTransaction, hactive]

/-- On a scope without transaction, when `BeginTx` succeeds, `RunTransaction` runs the
operation on the derived scope and then the deferred function. -/
theorem RunTransaction_fresh (d : Driver) (m : TransactionManager) (ctx : Context)
    (tx : Transaction) (fn : Operation) (opts : List TransactionOption) (h : Trace)
    (hfresh : activeTx ctx = none)
    (hbegin : d.BeginTx m.connection ctx (txOptionsOf opts) h = .ok tx) :
    m.RunTransaction d ctx fn opts h =
      runTransaction_deferred d tx ctx
        (fn (ctx.WithValue key.txKey (.transaction tx))
          (h ++ [Event.BeginTx m.connection ctx (txOptionsOf opts)])) := by
  unfold activeTx at hfresh
  simp [TransactionManager.RunTransaction, TransactionManager.runTransaction, hfresh, hbegin]

/-- On a scope that carries a transaction, a chain of any depth is its innermost operation. -/
theorem nestedChain_nested (d : Driver) (m : TransactionManager)
    (optss : List (List TransactionOption)) (inner : Operation) (ctx : Context)
    (tx : Transaction) (h : Trace) (hactive : activeTx ctx = some tx) :
    nestedChain d m optss inner ctx h = inner ctx h := by
  induction optss generalizing h with
  | nil => rfl
  | cons opts rest ih =>
    show m.RunTransaction d ctx (nestedChain d m rest inner) opts h = inner ctx h
    rw [RunTransaction_nested d m ctx tx _ opts h hactive]
    exact ih h

/-- On a scope without transaction, a chain of depth at least one begins once, runs the
innermost operation on the derived scope, and then runs the deferred function once. -/
theorem nestedChain_fresh (d : Driver) (m : TransactionManager)
    (opts : List TransactionOption) (rest : List (List TransactionOption))
    (inner : Operation) (ctx : Context) (tx : Transaction) (h : Trace)
    (hfresh : activeTx ctx = none)
    (hbegin : d.BeginTx m.connection ctx (txOptionsOf opts) h = .ok tx) :
    nestedChain d m (opts :: rest) inner ctx h =
      runTransaction_deferred d tx ctx
        (inner (ctx.WithValue key.txKey (.transaction tx))
          (h ++ [Event.BeginTx m.connection ctx (txOptionsOf opts)])) := by
  show m.RunTransaction d ctx (nestedChain d m rest inner) opts h = _
  rw [RunTransaction_fresh d m ctx tx _ opts h hfresh hbegin,
    nestedChain_nested d m rest inner _ tx _ (activeTx_WithValue ctx tx)]

/-- The deferred function after an operation that returned an error. -/
theorem deferred_of_error (d : Driver) (tx : Transaction) (ctx : Context)
    (body : Outcome (Option GoError) × Trace) (e : GoError)
    (hbody : body.1 = .returned (some e)) :
    runTransaction_deferred d tx ctx body =
      (match d.Rollback tx ctx body.2 with
        | none => .returned (some e)
        | some r => .returned (some (.errorf ("rollback failed: " ++ r.Error))),
       body.2 ++ [Event.Rollback tx ctx]) := by
  simp only [runTransaction_deferred, hbody]
  cases d.Rollback tx ctx body.2 <;> rfl

/-- The deferred function after an operation that panicked. -/
theorem deferred_of_panic (d : Driver) (tx : Transaction) (ctx : Context)
    (body : Outcome (Option GoError) × Trace) (v : PanicValue)
    (hbody : body.1 = .panicked v) :
    runTransaction_deferred d tx ctx body =
      (match d.Rollback tx ctx body.2 with
        | none => .returned (some (.errorf ("panic recovered: " ++ v.format)))
        | some r => .returned (some (.errorf ("rollback failed: " ++ r.Error))),
       body.2 ++ [Event.Rollback tx ctx]) := by
  simp only [runTransaction_deferred, hbody]
  cases d.Rollback tx ctx body.2 <;> rfl

/-- The deferred function after an operation that returned nil, `Commit` succeeding. -/
theorem deferred_of_commit_ok (d : Driver) (tx : Transaction) (ctx : Context)
    (body : Outcome (Option GoError) × Trace)
    (hbody : body.1 = .returned none) (hcommit : d.Commit tx ctx body.2 = none) :
    runTransaction_deferred d tx ctx body =
      (.returned none, body.2 ++ [Event.Commit tx ctx]) := by
  simp only [runTransaction_deferred, hbody, hcommit]

/-- The deferred function after an operation that returned nil, `Commit` failing. -/
theorem deferred_of_commit_failed (d : Driver) (tx : Transaction) (ctx : Context)
    (body : Outcome (Option GoError) × Trace) (c : GoError)
    (hbody : body.1 = .returned none) (hcommit : d.Commit tx ctx body.2 = some c) :
    runTransaction_deferred d tx ctx body =
      (match d.Rollback tx ctx (body.2 ++ [Event.Commit tx ctx]) with
        | none => .returned (some (.errorf ("commit failed: " ++ c.Error)))
        | some r => .returned (some (.errorf ("rollback failed: " ++ r.Error))),
       body.2 ++ [Event.Commit tx ctx, Event.Rollback tx ctx]) := by
  simp only [runTransaction_deferred, hbody, hcommit]
  cases d.Rollback tx ctx (body.2 ++ [Event.Commit tx ctx]) <;> simp

/-- Counting `BeginTx` calls only looks at lifecycle calls. -/
theorem countBegin_lifecycle (t : Trace) : countBegin (lifecycle t) = countBegin t := by
  unfold countBegin lifecycle
  rw [List.countP_filter]
  congr 1
  funext ev
  cases ev <;> rfl

/-- Counting `Commit` and `Rollback` calls only looks at lifecycle calls. -/
theorem countRelease_lifecycle (tx : Transaction) (t : Trace) :
    countRelease tx (lifecycle t) = countRelease tx t := by
  unfold countRelease lifecycle
  rw [List.countP_filter]
  congr 1
  funext ev
  cases ev <;> simp [Event.isRelease, Event.isLifecycle]

/-- The lifecycle calls of a concatenation. -/
theorem lifecycle_append (a b : Trace) : lifecycle (a ++ b) = lifecycle a ++ lifecycle b := by
  simp [lifecycle]

/-- The release sequence the deferred function appends is fixed by how the body ended
and by the answer of `Commit`: `Rollback` alone after a body that did not return nil,
`Commit` alone after a successful commit, `Commit` then `Rollback` after a failed one. -/
theorem deferred_release_determined (d : Driver) (tx : Transaction) (ctx : Context)
    (body : Outcome (Option GoError) × Trace) :
    (body.1 ≠ .returned none →
      (runTransaction_deferred d tx ctx body).2 = body.2 ++ [Event.Rollback tx ctx]) ∧
    (body.1 = .returned none → d.Commit tx ctx body.2 = none →
      (runTransaction_deferred d tx ctx body).2 = body.2 ++ [Event.Commit tx ctx]) ∧
    (body.1 = .returned none → d.Commit tx ctx body.2 ≠ none →
      (runTransaction_deferred d tx ctx body).2 =
        body.2 ++ [Event.Commit tx ctx, Event.Rollback tx ctx]) := by
  refine ⟨?_, ?_, ?_⟩
  · intro hne
    cases hb : body.1 with
    | panicked v => rw [deferred_of_panic d tx ctx body v hb]
    | returned err =>
      cases err with
      | none => exact absurd hb hne
      | some e => rw [deferred_of_error d tx ctx body e hb]
  · intro hb hc
    rw [deferred_of_commit_ok d tx ctx body hb hc]
  · intro hb hc
    cases hcv : d.Commit tx ctx body.2 with
    | none => exact absurd hcv hc
    | some c => rw [deferred_of_commit_failed d tx ctx body c hb hcv]

/-- The deferred function appends one of three release sequences to the trace of the body. -/
theorem deferred_release (d : Driver) (tx : Transaction) (ctx : Context)
    (body : Outcome (Option GoError) × Trace) :
    ∃ release : Trace,
      (runTransaction_deferred d tx ctx body).2 = body.2 ++ release ∧
      (release = [Event.Commit tx ctx] ∨ release = [Event.Rollback tx ctx] ∨
        (body.1 = .returned none ∧ d.Commit tx ctx body.2 ≠ none ∧
          release = [Event.Commit tx ctx, Event.Rollback tx ctx])) := by
  cases hb : body.1 with
  | panicked v =>
    exact ⟨[Event.Rollback tx ctx], by rw [deferred_of_panic d tx ctx body v hb], Or.inr (Or.inl rfl)⟩
  | returned err =>
    cases err with
    | some e =>
      exact ⟨[Event.Rollback tx ctx], by rw [deferred_of_error d tx ctx body e hb],
        Or.inr (Or.inl rfl)⟩
    | none =>
      cases hc : d.Commit tx ctx body.2 with
      | none =>
        exact ⟨[Event.Commit tx ctx], by rw [deferred_of_commit_ok d tx ctx body hb hc],
          Or.inl rfl⟩
      | some c =>
        exact ⟨[Event.Commit tx ctx, Event.Rollback tx ctx],
          by rw [deferred_of_commit_failed d tx ctx body c hb hc],
          Or.inr (Or.inr ⟨rfl, by simp, rfl⟩)⟩

/-- After a successful reservation and a successful `BeginTx`, `CreateOrder` maps the
result of the deferred function run after its three-step body. -/
theorem CreateOrder_in_transaction (d : Driver) (m : TransactionManager) (oms : Deps)
    (ctx : Context) (userID : UserID) (info : CreateOrderInfo) (tx : Transaction) (h : Trace)
    (hTM : oms.RunTransaction = fun c fn o => m.RunTransaction d c fn o)
    (hres : oms.ReserveStocks ctx userID info.Items h = .returned none)
    (hfresh : activeTx ctx = none)
    (hbegin : d.BeginTx m.connection ctx (txOptionsOf usecase.txOptions)
      (h ++ [Event.ReserveStocks ctx userID info.Items]) = .ok tx) :
    usecase.CreateOrder oms ctx userID info h =
      match runTransaction_deferred d tx ctx
          (usecase.CreateOrder_fn oms (usecase.newOrder oms userID info h) userID info
            (txScope ctx tx)
            (begun m ctx usecase.txOptions (h ++ [Event.ReserveStocks ctx userID info.Items])))
        with
      | (.panicked v, h2) => (.panicked v, h2)
      | (.returned (some err), h2) =>
        (.returned (none, some (pkgerrors.Wrap usecase.api err)), h2)
      | (.returned none, h2) => (.returned (some (usecase.newOrder oms userID info h), none), h2) := by
  simp only [usecase.CreateOrder, hres, hTM]
  rw [RunTransaction_fresh d m ctx tx _ usecase.txOptions _ hfresh hbegin]

/-- The body when the insert of the order does not return nil. -/
theorem CreateOrder_fn_first_fails (oms : Deps) (order : Order) (userID : UserID)
    (info : CreateOrderInfo) (txCtx : Context) (t : Trace) (out : Outcome (Option GoError))
    (hne : out ≠ .returned none)
    (h1 : oms.CreateOrder txCtx order t = out) :
    usecase.CreateOrder_fn oms order userID info txCtx t =
      (out, t ++ [Event.CreateOrder txCtx order]) := by
  subst h1
  unfold usecase.CreateOrder_fn
  split <;> simp_all

/-- The body when the insert of the outbox message does not return nil. -/
theorem CreateOrder_fn_second_fails (oms : Deps) (order : Order) (userID : UserID)
    (info : CreateOrderInfo) (txCtx : Context) (t : Trace) (out : Outcome (Option GoError))
    (hne : out ≠ .returned none)
    (h1 : oms.CreateOrder txCtx order t = .returned none)
    (h2 : oms.CreateOutboxMessage txCtx order (t ++ [Event.CreateOrder txCtx order]) = out) :
    usecase.CreateOrder_fn oms order userID info txCtx t =
      (out, t ++ [Event.CreateOrder txCtx order, Event.CreateOutboxMessage txCtx order]) := by
  subst h2
  simp only [usecase.CreateOrder_fn, h1]
  split <;> simp_all

/-- The body when the two inserts returned nil: it ends as the deletion of the cart items ends. -/
theorem CreateOrder_fn_third (oms : Deps) (order : Order) (userID : UserID)
    (info : CreateOrderInfo) (txCtx : Context) (t : Trace)
    (h1 : oms.CreateOrder txCtx order t = .returned none)
    (h2 : oms.CreateOutboxMessage txCtx order (t ++ [Event.CreateOrder txCtx order]) =
      .returned none) :
    usecase.CreateOrder_fn oms order userID info txCtx t =
      (oms.DeleteItems txCtx userID info.Items
          (t ++ [Event.CreateOrder txCtx order, Event.CreateOutboxMessage txCtx order]),
        t ++ [Event.CreateOrder txCtx order, Event.CreateOutboxMessage txCtx order,
          Event.DeleteItems txCtx userID info.Items]) := by
  simp only [usecase.CreateOrder_fn, h1, h2, List.append_assoc, List.singleton_append]
  split <;> simp_all

/-- The deferred function after a body that did not return nil: one `Rollback`, a non-nil
error, which is the error of the body when the rollback succeeds. -/
theorem deferred_of_failure (d : Driver) (tx : Transaction) (ctx : Context)
    (out : Outcome (Option GoError)) (t : Trace) (hne : out ≠ .returned none) :
    ∃ x : GoError,
      runTransaction_deferred d tx ctx (out, t) =
        (.returned (some x), t ++ [Event.Rollback tx ctx]) ∧
      (∀ e, out = .returned (some e) → d.Rollback tx ctx t = none → x = e) := by
  cases out with
  | panicked v =>
    rw [deferred_of_panic d tx ctx _ v rfl]
    cases d.Rollback tx ctx t with
    | none => exact ⟨_, rfl, fun e he => by cases he⟩
    | some r => exact ⟨_, rfl, fun e he => by cases he⟩
  | returned err =>
    cases err with
    | none => exact absurd rfl hne
    | some e0 =>
      rw [deferred_of_error d tx ctx _ e0 rfl]
      cases hr : d.Rollback tx ctx t with
      | none => exact ⟨_, rfl, fun e he _ => by cases he; rfl⟩
      | some r => exact ⟨_, rfl, fun e he hn => by simp [hr] at hn⟩

/-- The deferred function after a body that returned nil, `Commit` failing: `Commit`, then
`Rollback`, and a non-nil error. -/
theorem deferred_of_commit_failure (d : Driver) (tx : Transaction) (ctx : Context)
    (t : Trace) (c : GoError) (hcommit : d.Commit tx ctx t = some c) :
    ∃ x : GoError,
      runTransaction_deferred d tx ctx (.returned none, t) =
        (.returned (some x), t ++ [Event.Commit tx ctx, Event.Rollback tx ctx]) ∧
      (d.Rollback tx ctx (t ++ [Event.Commit tx ctx]) = none →
        x = .errorf ("commit failed: " ++ c.Error)) := by
  rw [deferred_of_commit_failed d tx ctx _ c rfl hcommit]
  cases hr : d.Rollback tx ctx (t ++ [Event.Commit tx ctx]) with
  | none => exact ⟨.errorf ("commit failed: " ++ c.Error), by simp [hr], fun _ => rfl⟩
  | some r =>
    exact ⟨.errorf ("rollback failed: " ++ r.Error), by simp [hr], fun hn => by cases hn⟩

/-! ## The claims -/

/-- C1: on a scope that already carries an active Transaction Handle, `RunTransaction`,
whatever the operation and the options, is exactly one invocation of the operation with
that same scope: same outcome (nil, the very same error, or the panic), same trace, so
no `BeginTx`, `Commit` or `Rollback` of its own and no effect of the options; an
operation that records its scope records that scope, once. -/
theorem C1_nested_call_runs_operation_as_is (d : Driver) (m : TransactionManager)
    (ctx : Context) (tx : Transaction) (fn : Operation) (opts : List TransactionOption)
    (h : Trace) (hactive : activeTx ctx = some tx) :
    m.RunTransaction d ctx fn opts h = fn ctx h ∧
    m.RunTransaction d ctx (recording fn) opts h = fn ctx (h ++ [Event.invoked ctx]) :=
  ⟨RunTransaction_nested d m ctx tx fn opts h hactive,
    RunTransaction_nested d m ctx tx (recording fn) opts h hactive⟩

/-- Witness of C1: a failing operation under an isolation option, on a scope that
carries transaction 3. -/
theorem C1_witness :
    activeTx ctxInTx = some ⟨3⟩ ∧
    (tm1.RunTransaction okDriver ctxInTx opFail [WithIsoLevel .Serializable] [] =
        opFail ctxInTx [] ∧
      tm1.RunTransaction okDriver ctxInTx (recording opFail) [WithIsoLevel .Serializable] [] =
        opFail ctxInTx ([] ++ [Event.invoked ctxInTx])) :=
  ⟨by decide,
    C1_nested_call_runs_operation_as_is okDriver tm1 ctxInTx ⟨3⟩ opFail
      [WithIsoLevel .Serializable] [] (by decide)⟩

/-- Counterexample to C2 as stated: in a chain of depth one whose operation returns nil
and whose `Commit` fails, `Commit` and then `Rollback` are called on the one transaction:
two calls, not one. -/
theorem C2_counterexample :
    activeTx Context.Background = none ∧
    commitFailDriver.BeginTx tm1.connection Context.Background (txOptionsOf []) [] = .ok ⟨7⟩ ∧
    (nestedChain commitFailDriver tm1 [[]] opOk Context.Background []).2 =
      [Event.BeginTx ⟨1⟩ Context.Background defaultTxOptions,
        Event.invoked (txScope Context.Background ⟨7⟩),
        Event.Commit ⟨7⟩ Context.Background, Event.Rollback ⟨7⟩ Context.Background] ∧
    countBegin (nestedChain commitFailDriver tm1 [[]] opOk Context.Background []).2 = 1 ∧
    countRelease ⟨7⟩ (nestedChain commitFailDriver tm1 [[]] opOk Context.Background []).2 ≠ 1 :=
  ⟨by decide, rfl, by decide, by decide, by decide⟩

/-- C2, amended: in a chain of nested `RunTransaction` calls of any depth n >= 1 (the
outermost call on a scope with no active transaction, `BeginTx` succeeding, the innermost
operation making no lifecycle call of its own), `BeginTx` is called exactly once, and the
transaction is released by the outermost call only, after everything the chain did:
by one `Rollback` and no `Commit` when the innermost operation did not return nil, by one
`Commit` and no `Rollback` when it returned nil and `Commit` succeeded, and by one `Commit`
followed by one `Rollback` when it returned nil and `Commit` failed.  So the calls to
`Commit` and `Rollback` on the handle total one unless `Commit` fails, and two when it
does. -/
theorem C2_chain_one_begin_release_at_outermost_exit (d : Driver) (m : TransactionManager)
    (opts : List TransactionOption) (rest : List (List TransactionOption))
    (inner : Operation) (ctx : Context) (tx : Transaction) (h : Trace)
    (hfresh : activeTx ctx = none)
    (hbegin : d.BeginTx m.connection ctx (txOptionsOf opts) h = .ok tx)
    (hinner : ∀ c t, lifecycle (inner c t).2 = lifecycle t) :
    ∃ release : Trace,
      (nestedChain d m (opts :: rest) inner ctx h).2 =
        (inner (txScope ctx tx) (begun m ctx opts h)).2 ++ release ∧
      lifecycle (nestedChain d m (opts :: rest) inner ctx h).2 =
        lifecycle h ++ Event.BeginTx m.connection ctx (txOptionsOf opts) :: release ∧
      countBegin (nestedChain d m (opts :: rest) inner ctx h).2 = countBegin h + 1 ∧
      countRelease tx (nestedChain d m (opts :: rest) inner ctx h).2 =
        countRelease tx h + release.length ∧
      (release = [Event.Commit tx ctx] ∨ release = [Event.Rollback tx ctx] ∨
        ((inner (txScope ctx tx) (begun m ctx opts h)).1 = .returned none ∧
          d.Commit tx ctx (inner (txScope ctx tx) (begun m ctx opts h)).2 ≠ none ∧
          release = [Event.Commit tx ctx, Event.Rollback tx ctx])) ∧
      -- which release it is, and the number of release calls it amounts to
      ((inner (txScope ctx tx) (begun m ctx opts h)).1 ≠ .returned none →
        release = [Event.Rollback tx ctx] ∧
        countRelease tx (nestedChain d m (opts :: rest) inner ctx h).2 =
          countRelease tx h + 1) ∧
      ((inner (txScope ctx tx) (begun m ctx opts h)).1 = .returned none →
        d.Commit tx ctx (inner (txScope ctx tx) (begun m ctx opts h)).2 = none →
        release = [Event.Commit tx ctx] ∧
        countRelease tx (nestedChain d m (opts :: rest) inner ctx h).2 =
          countRelease tx h + 1) ∧
      ((inner (txScope ctx tx) (begun m ctx opts h)).1 = .returned none →
        d.Commit tx ctx (inner (txScope ctx tx) (begun m ctx opts h)).2 ≠ none →
        release = [Event.Commit tx ctx, Event.Rollback tx ctx] ∧
        countRelease tx (nestedChain d m (opts :: rest) inner ctx h).2 =
          countRelease tx h + 2) := by
  obtain ⟨release, htrace, hcases⟩ :=
    deferred_release d tx ctx (inner (txScope ctx tx) (begun m ctx opts h))
  obtain ⟨hdetFail, hdetOk, hdetBoth⟩ :=
    deferred_release_determined d tx ctx (inner (txScope ctx tx) (begun m ctx opts h))
  have hfinal : (nestedChain d m (opts :: rest) inner ctx h).2 =
      (inner (txScope ctx tx) (begun m ctx opts h)).2 ++ release := by
    rw [nestedChain_fresh d m opts rest inner ctx tx h hfresh hbegin]
    exact htrace
  have hrel : lifecycle release = release := by
    rcases hcases with hr | hr | ⟨_, _, hr⟩ <;> subst hr <;> rfl
  have hlife : lifecycle (nestedChain d m (opts :: rest) inner ctx h).2 =
      lifecycle h ++ Event.BeginTx m.connection ctx (txOptionsOf opts) :: release := by
    rw [hfinal, lifecycle_append, hinner, hrel, lifecycle_append]
    simp [lifecycle, Event.isLifecycle]
  have hcount : countRelease tx (nestedChain d m (opts :: rest) inner ctx h).2 =
      countRelease tx h + release.length := by
    rw [← countRelease_lifecycle, hlife, ← countRelease_lifecycle tx h]
    rcases hcases with hr | hr | ⟨_, _, hr⟩ <;> subst hr <;>
      simp [countRelease, Event.isRelease, List.countP_append, List.countP_cons]
  refine ⟨release, hfinal, hlife, ?_, hcount, hcases, ?_, ?_, ?_⟩
  · rw [← countBegin_lifecycle, hlife, ← countBegin_lifecycle h]
    rcases hcases with hr | hr | ⟨_, _, hr⟩ <;> subst hr <;>
      simp [countBegin, Event.isBegin, List.countP_append, List.countP_cons]
  · intro hne
    have hr : release = [Event.Rollback tx ctx] :=
      List.append_cancel_left (htrace.symm.trans (hdetFail hne))
    exact ⟨hr, by rw [hcount, hr]; rfl⟩
  · intro hb hc
    have hr : release = [Event.Commit tx ctx] :=
      List.append_cancel_left (htrace.symm.trans (hdetOk hb hc))
    exact ⟨hr, by rw [hcount, hr]; rfl⟩
  · intro hb hc
    have hr : release = [Event.Commit tx ctx, Event.Rollback tx ctx] :=
      List.append_cancel_left (htrace.symm.trans (hdetBoth hb hc))
    exact ⟨hr, by rw [hcount, hr]; rfl⟩

/-- Witness of the amended C2: a chain of depth three whose innermost operation returns
nil, over a failing `Commit`: the chain ends in `Commit` then `Rollback`, two release
calls on the one transaction. -/
theorem C2_witness :
    activeTx Context.Background = none ∧
    commitFailDriver.BeginTx tm1.connection Context.Background (txOptionsOf []) [] = .ok ⟨7⟩ ∧
    (∀ c t, lifecycle (opOk c t).2 = lifecycle t) ∧
    (opOk (txScope Context.Background ⟨7⟩) (begun tm1 Context.Background [] [])).1 =
      .returned none ∧
    commitFailDriver.Commit ⟨7⟩ Context.Background
      (opOk (txScope Context.Background ⟨7⟩) (begun tm1 Context.Background [] [])).2 ≠ none ∧
    (nestedChain commitFailDriver tm1 [[], [WithIsoLevel .Serializable], []] opOk
        Context.Background []).2 =
      (opOk (txScope Context.Background ⟨7⟩) (begun tm1 Context.Background [] [])).2 ++
        [Event.Commit ⟨7⟩ Context.Background, Event.Rollback ⟨7⟩ Context.Background] ∧
    lifecycle (nestedChain commitFailDriver tm1 [[], [WithIsoLevel .Serializable], []] opOk
        Context.Background []).2 =
      lifecycle [] ++ [Event.BeginTx tm1.connection Context.Background (txOptionsOf []),
        Event.Commit ⟨7⟩ Context.Background, Event.Rollback ⟨7⟩ Context.Background] ∧
    countBegin (nestedChain commitFailDriver tm1 [[], [WithIsoLevel .Serializable], []] opOk
        Context.Background []).2 = countBegin [] + 1 ∧
    countRelease ⟨7⟩ (nestedChain commitFailDriver tm1 [[], [WithIsoLevel .Serializable], []]
        opOk Context.Background []).2 = countRelease ⟨7⟩ [] + 2 :=
  have hop : ∀ c t, lifecycle (opOk c t).2 = lifecycle t := by
    intro c t
    simp [opOk, recording, lifecycle, Event.isLifecycle]
  have hcf : commitFailDriver.Commit ⟨7⟩ Context.Background
      (opOk (txScope Context.Background ⟨7⟩) (begun tm1 Context.Background [] [])).2 ≠ none :=
    by simp [commitFailDriver]
  match C2_chain_one_begin_release_at_outermost_exit commitFailDriver tm1 []
      [[WithIsoLevel .Serializable], []] opOk Context.Background ⟨7⟩ [] (by decide) rfl hop with
  | ⟨_, htrace, hlife, hbeginCount, _, _, _, _, hboth⟩ =>
    ⟨by decide, rfl, hop, rfl, hcf,
      (hboth rfl hcf).1 ▸ htrace, (hboth rfl hcf).1 ▸ hlife, hbeginCount, (hboth rfl hcf).2⟩

/-- C3: in a chain of `RunTransaction` calls with any number n >= 0 of nested levels
under the outermost one (outermost on a scope with no active transaction, `BeginTx`
succeeding, the innermost operation making no lifecycle call of its own), if the
innermost operation returns an error then the chain calls `Rollback` on the one
transaction, at the end, and never `Commit`; when that rollback succeeds the outermost
call returns the innermost error itself. -/
theorem C3_inner_error_rolls_back_outer (d : Driver) (m : TransactionManager)
    (opts : List TransactionOption) (rest : List (List TransactionOption))
    (inner : Operation) (ctx : Context) (tx : Transaction) (h : Trace) (e : GoError)
    (hfresh : activeTx ctx = none)
    (hbegin : d.BeginTx m.connection ctx (txOptionsOf opts) h = .ok tx)
    (hinner : ∀ c t, lifecycle (inner c t).2 = lifecycle t)
    (herr : (inner (txScope ctx tx) (begun m ctx opts h)).1 = .returned (some e)) :
    (nestedChain d m (opts :: rest) inner ctx h).2 =
      (inner (txScope ctx tx) (begun m ctx opts h)).2 ++ [Event.Rollback tx ctx] ∧
    lifecycle (nestedChain d m (opts :: rest) inner ctx h).2 =
      lifecycle h ++
        [Event.BeginTx m.connection ctx (txOptionsOf opts), Event.Rollback tx ctx] ∧
    (d.Rollback tx ctx (inner (txScope ctx tx) (begun m ctx opts h)).2 = none →
      (nestedChain d m (opts :: rest) inner ctx h).1 = .returned (some e)) := by
  rw [nestedChain_fresh d m opts rest inner ctx tx h hfresh hbegin,
    deferred_of_error d tx ctx _ e herr]
  refine ⟨rfl, ?_, ?_⟩
  · show lifecycle ((inner (txScope ctx tx) (begun m ctx opts h)).2 ++ [Event.Rollback tx ctx])
      = _
    rw [lifecycle_append, hinner, lifecycle_append]
    simp [lifecycle, Event.isLifecycle]
  · intro hroll
    simp [hroll]

/-- Witness of C3: two nested levels under the outermost call, the innermost operation
failing with `boom`. -/
theorem C3_witness :
    activeTx Context.Background = none ∧
    okDriver.BeginTx tm1.connection Context.Background (txOptionsOf []) [] = .ok ⟨7⟩ ∧
    (opFail (txScope Context.Background ⟨7⟩) (begun tm1 Context.Background [] [])).1 =
      .returned (some (.foreign 9 "boom")) ∧
    okDriver.Rollback ⟨7⟩ Context.Background
      (opFail (txScope Context.Background ⟨7⟩) (begun tm1 Context.Background [] [])).2 = none ∧
    (nestedChain okDriver tm1 [[], [], []] opFail Context.Background []).2 =
      (opFail (txScope Context.Background ⟨7⟩) (begun tm1 Context.Background [] [])).2
        ++ [Event.Rollback ⟨7⟩ Context.Background] ∧
    lifecycle (nestedChain okDriver tm1 [[], [], []] opFail Context.Background []).2 =
      lifecycle [] ++ [Event.BeginTx tm1.connection Context.Background (txOptionsOf []),
        Event.Rollback ⟨7⟩ Context.Background] ∧
    (nestedChain okDriver tm1 [[], [], []] opFail Context.Background []).1 =
      .returned (some (.foreign 9 "boom")) :=
  have hop : ∀ c t, lifecycle (opFail c t).2 = lifecycle t := by
    intro c t
    simp [opFail, recording, lifecycle, Event.isLifecycle]
  have hmain := C3_inner_error_rolls_back_outer okDriver tm1 [] [[], []] opFail
    Context.Background ⟨7⟩ [] (.foreign 9 "boom") (by decide) rfl hop rfl
  ⟨by decide, rfl, rfl, rfl, hmain.1, hmain.2.1, hmain.2.2 rfl⟩

/-- C4: a `RunTransaction` on a scope with no active transaction whose `BeginTx` succeeds
and whose operation panics with a value `v` returns (the panic does not escape) a non-nil
error; after the operation it calls `Rollback` once and nothing else, so never `Commit`;
when the rollback succeeds the error is the `panic recovered: v` error. -/
theorem C4_panic_is_rolled_back_and_returned (d : Driver) (m : TransactionManager)
    (ctx : Context) (fn : Operation) (opts : List TransactionOption) (tx : Transaction)
    (h : Trace) (v : PanicValue)
    (hfresh : activeTx ctx = none)
    (hbegin : d.BeginTx m.connection ctx (txOptionsOf opts) h = .ok tx)
    (hpanic : (fn (txScope ctx tx) (begun m ctx opts h)).1 = .panicked v) :
    (∃ err : GoError, (m.RunTransaction d ctx fn opts h).1 = .returned (some err)) ∧
    (m.RunTransaction d ctx fn opts h).2 =
      (fn (txScope ctx tx) (begun m ctx opts h)).2 ++ [Event.Rollback tx ctx] ∧
    (d.Rollback tx ctx (fn (txScope ctx tx) (begun m ctx opts h)).2 = none →
      (m.RunTransaction d ctx fn opts h).1 =
        .returned (some (.errorf ("panic recovered: " ++ v.format)))) := by
  rw [RunTransaction_fresh d m ctx tx fn opts h hfresh hbegin,
    deferred_of_panic d tx ctx _ v hpanic]
  refine ⟨?_, rfl, ?_⟩
  · cases d.Rollback tx ctx (fn (txScope ctx tx) (begun m ctx opts h)).2 with
    | none => exact ⟨_, rfl⟩
    | some r => exact ⟨_, rfl⟩
  · intro hroll
    simp [hroll]

/-- Witness of C4: the operation panics with the string `oops`. -/
theorem C4_witness :
    activeTx Context.Background = none ∧
    okDriver.BeginTx tm1.connection Context.Background (txOptionsOf []) [] = .ok ⟨7⟩ ∧
    (opPanic (txScope Context.Background ⟨7⟩) (begun tm1 Context.Background [] [])).1 =
      .panicked (.str "oops") ∧
    (tm1.RunTransaction okDriver Context.Background opPanic [] []).2 =
      (opPanic (txScope Context.Background ⟨7⟩) (begun tm1 Context.Background [] [])).2
        ++ [Event.Rollback ⟨7⟩ Context.Background] ∧
    (tm1.RunTransaction okDriver Context.Background opPanic [] []).1 =
      .returned (some (.errorf ("panic recovered: " ++ (PanicValue.str "oops").format))) :=
  have hmain := C4_panic_is_rolled_back_and_returned okDriver tm1 Context.Background opPanic
    [] ⟨7⟩ [] (.str "oops") (by decide) rfl rfl
  ⟨by decide, rfl, rfl, hmain.2.1, hmain.2.2 rfl⟩

/-- C5: a `RunTransaction` on a scope with no active transaction whose `BeginTx` succeeds
and whose operation returns nil calls `Commit` once, right after the operation.  If
`Commit` succeeds, nothing else is called and the result is nil.  If `Commit` fails with
`c`, `Rollback` is called next and, when it succeeds, the result is the `commit failed`
error made from the text of `c`. -/
theorem C5_commit_after_success (d : Driver) (m : TransactionManager)
    (ctx : Context) (fn : Operation) (opts : List TransactionOption) (tx : Transaction)
    (h : Trace)
    (hfresh : activeTx ctx = none)
    (hbegin : d.BeginTx m.connection ctx (txOptionsOf opts) h = .ok tx)
    (hok : (fn (txScope ctx tx) (begun m ctx opts h)).1 = .returned none) :
    (d.Commit tx ctx (fn (txScope ctx tx) (begun m ctx opts h)).2 = none →
      m.RunTransaction d ctx fn opts h =
        (.returned none,
          (fn (txScope ctx tx) (begun m ctx opts h)).2 ++ [Event.Commit tx ctx])) ∧
    (∀ c : GoError,
      d.Commit tx ctx (fn (txScope ctx tx) (begun m ctx opts h)).2 = some c →
      (m.RunTransaction d ctx fn opts h).2 =
          (fn (txScope ctx tx) (begun m ctx opts h)).2 ++
            [Event.Commit tx ctx, Event.Rollback tx ctx] ∧
        (d.Rollback tx ctx
            ((fn (txScope ctx tx) (begun m ctx opts h)).2 ++ [Event.Commit tx ctx]) = none →
          (m.RunTransaction d ctx fn opts h).1 =
            .returned (some (.errorf ("commit failed: " ++ c.Error))))) := by
  rw [RunTransaction_fresh d m ctx tx fn opts h hfresh hbegin]
  refine ⟨fun hcommit => deferred_of_commit_ok d tx ctx _ hok hcommit, ?_⟩
  intro c hcommit
  rw [deferred_of_commit_failed d tx ctx _ c hok hcommit]
  refine ⟨rfl, ?_⟩
  intro hroll
  simp [hroll]

/-- Witness of C5: the operation returns nil; over one driver `Commit` succeeds, over the
other it fails with `conn closed` and the rollback succeeds. -/
theorem C5_witness :
    (activeTx Context.Background = none ∧
      okDriver.BeginTx tm1.connection Context.Background (txOptionsOf []) [] = .ok ⟨7⟩ ∧
      (opOk (txScope Context.Background ⟨7⟩) (begun tm1 Context.Background [] [])).1 =
        .returned none ∧
      tm1.RunTransaction okDriver Context.Background opOk [] [] =
        (.returned none,
          (opOk (txScope Context.Background ⟨7⟩) (begun tm1 Context.Background [] [])).2
            ++ [Event.Commit ⟨7⟩ Context.Background])) ∧
    ((tm1.RunTransaction commitFailDriver Context.Background opOk [] []).2 =
        (opOk (txScope Context.Background ⟨7⟩) (begun tm1 Context.Background [] [])).2 ++
          [Event.Commit ⟨7⟩ Context.Background, Event.Rollback ⟨7⟩ Context.Background] ∧
      (tm1.RunTransaction commitFailDriver Context.Background opOk [] []).1 =
        .returned (some (.errorf ("commit failed: " ++ (GoError.foreign 1 "conn closed").Error)))) :=
  have hgood := C5_commit_after_success okDriver tm1 Context.Background opOk [] ⟨7⟩ []
    (by decide) rfl rfl
  have hbad := C5_commit_after_success commitFailDriver tm1 Context.Background opOk [] ⟨7⟩ []
    (by decide) rfl rfl
  ⟨⟨by decide, rfl, rfl, hgood.1 rfl⟩,
    ⟨(hbad.2 (.foreign 1 "conn closed") rfl).1, (hbad.2 (.foreign 1 "conn closed") rfl).2 rfl⟩⟩

/-- C6: in a `RunTransaction` on a scope with no active transaction whose `BeginTx`
succeeds, whenever `Rollback` is called (the operation returned an error, or panicked, or
returned nil and `Commit` failed) and fails with `r`, the result is the `rollback failed`
error made from the text of `r` alone, whatever the original error was. -/
theorem C6_rollback_failure_masks_original (d : Driver) (m : TransactionManager)
    (ctx : Context) (fn : Operation) (opts : List TransactionOption) (tx : Transaction)
    (h : Trace) (r : GoError)
    (hfresh : activeTx ctx = none)
    (hbegin : d.BeginTx m.connection ctx (txOptionsOf opts) h = .ok tx) :
    (∀ e : GoError, (fn (txScope ctx tx) (begun m ctx opts h)).1 = .returned (some e) →
      d.Rollback tx ctx (fn (txScope ctx tx) (begun m ctx opts h)).2 = some r →
      m.RunTransaction d ctx fn opts h =
        (.returned (some (.errorf ("rollback failed: " ++ r.Error))),
          (fn (txScope ctx tx) (begun m ctx opts h)).2 ++ [Event.Rollback tx ctx])) ∧
    (∀ v : PanicValue, (fn (txScope ctx tx) (begun m ctx opts h)).1 = .panicked v →
      d.Rollback tx ctx (fn (txScope ctx tx) (begun m ctx opts h)).2 = some r →
      m.RunTransaction d ctx fn opts h =
        (.returned (some (.errorf ("rollback failed: " ++ r.Error))),
          (fn (txScope ctx tx) (begun m ctx opts h)).2 ++ [Event.Rollback tx ctx])) ∧
    (∀ c : GoError, (fn (txScope ctx tx) (begun m ctx opts h)).1 = .returned none →
      d.Commit tx ctx (fn (txScope ctx tx) (begun m ctx opts h)).2 = some c →
      d.Rollback tx ctx
        ((fn (txScope ctx tx) (begun m ctx opts h)).2 ++ [Event.Commit tx ctx]) = some r →
      m.RunTransaction d ctx fn opts h =
        (.returned (some (.errorf ("rollback failed: " ++ r.Error))),
          (fn (txScope ctx tx) (begun m ctx opts h)).2 ++
            [Event.Commit tx ctx, Event.Rollback tx ctx])) := by
  rw [RunTransaction_fresh d m ctx tx fn opts h hfresh hbegin]
  refine ⟨?_, ?_, ?_⟩
  · intro e herr hroll
    rw [deferred_of_error d tx ctx _ e herr, hroll]
  · intro v hpanic hroll
    rw [deferred_of_panic d tx ctx _ v hpanic, hroll]
  · intro c hok hcommit hroll
    rw [deferred_of_commit_failed d tx ctx _ c hok hcommit, hroll]

/-- Witness of C6: over a driver whose `Rollback` fails with `tx is closed`, a failing
operation, a panicking operation and a failed `Commit` all end in the same error. -/
theorem C6_witness :
    activeTx Context.Background = none ∧
    rollbackFailDriver.BeginTx tm1.connection Context.Background (txOptionsOf []) [] = .ok ⟨7⟩ ∧
    (tm1.RunTransaction rollbackFailDriver Context.Background opFail [] []).1 =
      .returned (some (.errorf "rollback failed: tx is closed")) ∧
    (tm1.RunTransaction rollbackFailDriver Context.Background opPanic [] []).1 =
      .returned (some (.errorf "rollback failed: tx is closed")) ∧
    (tm1.RunTransaction rollbackFailDriver Context.Background opOk [] []).1 =
      .returned (some (.errorf "rollback failed: tx is closed")) :=
  ⟨by decide, rfl,
    congrArg Prod.fst
      ((C6_rollback_failure_masks_original rollbackFailDriver tm1 Context.Background opFail []
        ⟨7⟩ [] (.foreign 2 "tx is closed") (by decide) rfl).1 (.foreign 9 "boom") rfl rfl),
    congrArg Prod.fst
      ((C6_rollback_failure_masks_original rollbackFailDriver tm1 Context.Background opPanic []
        ⟨7⟩ [] (.foreign 2 "tx is closed") (by decide) rfl).2.1 (.str "oops") rfl rfl),
    congrArg Prod.fst
      ((C6_rollback_failure_masks_original rollbackFailDriver tm1 Context.Background opOk []
        ⟨7⟩ [] (.foreign 2 "tx is closed") (by decide) rfl).2.2 (.foreign 1 "conn closed")
        rfl rfl rfl)⟩

/-- Counterexample to C7 as stated: with no options, on the background scope, the
transaction is begun in `Deferrable` mode, not in `NotDeferrable` mode. -/
theorem C7_counterexample :
    activeTx Context.Background = none ∧
    (tm1.RunTransaction okDriver Context.Background opOk [] []).2.head? =
      some (Event.BeginTx ⟨1⟩ Context.Background ⟨.ReadCommitted, .ReadWrite, .Deferrable⟩) ∧
    (tm1.RunTransaction okDriver Context.Background opOk [] []).2.head? ≠
      some (Event.BeginTx ⟨1⟩ Context.Background ⟨.ReadCommitted, .ReadWrite, .NotDeferrable⟩) :=
  ⟨by decide, by decide, by decide⟩

/-- C7, amended: `RunTransaction` called with no options on a scope without an active
transaction calls `BeginTx` with read-committed isolation, read-write access mode and
deferrable mode, and goes on from its answer as `runTransaction` does. -/
theorem C7_default_options_are_deferrable (d : Driver) (m : TransactionManager)
    (ctx : Context) (fn : Operation) (h : Trace) (hfresh : activeTx ctx = none) :
    txOptionsOf [] = ⟨.ReadCommitted, .ReadWrite, .Deferrable⟩ ∧
    m.RunTransaction d ctx fn [] h =
      match d.BeginTx m.connection ctx ⟨.ReadCommitted, .ReadWrite, .Deferrable⟩ h with
      | .error e =>
        (.returned (some (.errorf ("can't begin transaction: " ++ e.Error))),
          h ++ [Event.BeginTx m.connection ctx ⟨.ReadCommitted, .ReadWrite, .Deferrable⟩])
      | .ok tx =>
        runTransaction_deferred d tx ctx
          (fn (txScope ctx tx)
            (h ++ [Event.BeginTx m.connection ctx ⟨.ReadCommitted, .ReadWrite, .Deferrable⟩])) := by
  refine ⟨rfl, ?_⟩
  unfold activeTx at hfresh
  simp only [TransactionManager.RunTransaction, TransactionManager.runTransaction, hfresh]
  rfl

/-- Witness of the amended C7: the background scope, a driver that accepts. -/
theorem C7_witness :
    activeTx Context.Background = none ∧
    tm1.RunTransaction okDriver Context.Background opOk [] [] =
      runTransaction_deferred okDriver ⟨7⟩ Context.Background
        (opOk (txScope Context.Background ⟨7⟩)
          ([] ++ [Event.BeginTx tm1.connection Context.Background
            ⟨.ReadCommitted, .ReadWrite, .Deferrable⟩])) :=
  ⟨by decide,
    (C7_default_options_are_deferrable okDriver tm1 Context.Background opOk []
      (by decide)).2⟩

/-- C8: if `ReserveStocks` returns the error `e`, then `CreateOrder`, whatever its other
dependencies are, makes no further call (no `RunTransaction`, no `CreateOrder`,
`CreateOutboxMessage` or `DeleteItems` of the storages: the trace grows by the
reservation call only) and returns no order together with the error that wraps `e`. -/
theorem C8_reservation_failure_writes_nothing (oms : Deps) (ctx : Context)
    (userID : UserID) (info : CreateOrderInfo) (h : Trace) (e : GoError)
    (hres : oms.ReserveStocks ctx userID info.Items h = .returned (some e)) :
    usecase.CreateOrder oms ctx userID info h =
      (.returned (none, some (pkgerrors.Wrap usecase.api e)),
        h ++ [Event.ReserveStocks ctx userID info.Items]) := by
  simp only [usecase.CreateOrder, hres]

/-- Witness of C8: the reservation fails with `boom` under the wiring of `main`. -/
theorem C8_witness :
    (wiredDeps okDriver tm1 (some (.foreign 9 "boom")) none none none).ReserveStocks
      Context.Background 5 info1.Items [] = .returned (some (.foreign 9 "boom")) ∧
    usecase.CreateOrder (wiredDeps okDriver tm1 (some (.foreign 9 "boom")) none none none)
        Context.Background 5 info1 [] =
      (.returned (none, some (pkgerrors.Wrap usecase.api (.foreign 9 "boom"))),
        [] ++ [Event.ReserveStocks Context.Background 5 info1.Items]) :=
  ⟨rfl,
    C8_reservation_failure_writes_nothing
      (wiredDeps okDriver tm1 (some (.foreign 9 "boom")) none none none)
      Context.Background 5 info1 [] (.foreign 9 "boom") rfl⟩

/-- C9: in a `CreateOrder` whose reservation succeeds and whose transaction begins (scope
with no active transaction, `BeginTx` succeeding, the transaction manager wired as in
`main`), the steps run in the order insert order, insert outbox message, delete cart
items, all on the one derived scope.  If a step returns an error, no later step runs,
`Rollback` is called and `Commit` is not, and `CreateOrder` returns no order and a
non-nil error (wrapping the error of the step when the rollback succeeds).  `Commit` is
called only when all three steps returned nil, and then right after them. -/
theorem C9_create_order_all_or_nothing (d : Driver) (m : TransactionManager) (oms : Deps)
    (ctx : Context) (userID : UserID) (info : CreateOrderInfo) (tx : Transaction) (h : Trace)
    (order : Order) (txCtx : Context) (hB : Trace)
    (hTM : oms.RunTransaction = fun c fn o => m.RunTransaction d c fn o)
    (hres : oms.ReserveStocks ctx userID info.Items h = .returned none)
    (hfresh : activeTx ctx = none)
    (hbegin : d.BeginTx m.connection ctx (txOptionsOf usecase.txOptions)
      (h ++ [Event.ReserveStocks ctx userID info.Items]) = .ok tx)
    (horder : order = usecase.newOrder oms userID info h)
    (hscope : txCtx = txScope ctx tx)
    (htrace : hB = h ++ [Event.ReserveStocks ctx userID info.Items,
      Event.BeginTx m.connection ctx ⟨.ReadCommitted, .ReadWrite, .NotDeferrable⟩]) :
    -- the insert of the order fails
    (∀ e : GoError, oms.CreateOrder txCtx order hB = .returned (some e) →
      (usecase.CreateOrder oms ctx userID info h).2 =
          hB ++ [Event.CreateOrder txCtx order, Event.Rollback tx ctx] ∧
        (∃ err : GoError,
          (usecase.CreateOrder oms ctx userID info h).1 = .returned (none, some err)) ∧
        (d.Rollback tx ctx (hB ++ [Event.CreateOrder txCtx order]) = none →
          (usecase.CreateOrder oms ctx userID info h).1 =
            .returned (none, some (pkgerrors.Wrap usecase.api e)))) ∧
    -- the insert of the outbox message fails
    (∀ e : GoError, oms.CreateOrder txCtx order hB = .returned none →
      oms.CreateOutboxMessage txCtx order (hB ++ [Event.CreateOrder txCtx order]) =
        .returned (some e) →
      (usecase.CreateOrder oms ctx userID info h).2 =
          hB ++ [Event.CreateOrder txCtx order, Event.CreateOutboxMessage txCtx order,
            Event.Rollback tx ctx] ∧
        (∃ err : GoError,
          (usecase.CreateOrder oms ctx userID info h).1 = .returned (none, some err)) ∧
        (d.Rollback tx ctx
            (hB ++ [Event.CreateOrder txCtx order, Event.CreateOutboxMessage txCtx order]) =
              none →
          (usecase.CreateOrder oms ctx userID info h).1 =
            .returned (none, some (pkgerrors.Wrap usecase.api e)))) ∧
    -- the deletion of the cart items fails
    (∀ e : GoError, oms.CreateOrder txCtx order hB = .returned none →
      oms.CreateOutboxMessage txCtx order (hB ++ [Event.CreateOrder txCtx order]) =
        .returned none →
      oms.DeleteItems txCtx userID info.Items
        (hB ++ [Event.CreateOrder txCtx order, Event.CreateOutboxMessage txCtx order]) =
          .returned (some e) →
      (usecase.CreateOrder oms ctx userID info h).2 =
          hB ++ [Event.CreateOrder txCtx order, Event.CreateOutboxMessage txCtx order,
            Event.DeleteItems txCtx userID info.Items, Event.Rollback tx ctx] ∧
        (∃ err : GoError,
          (usecase.CreateOrder oms ctx userID info h).1 = .returned (none, some err)) ∧
        (d.Rollback tx ctx
            (hB ++ [Event.CreateOrder txCtx order, Event.CreateOutboxMessage txCtx order,
              Event.DeleteItems txCtx userID info.Items]) = none →
          (usecase.CreateOrder oms ctx userID info h).1 =
            .returned (none, some (pkgerrors.Wrap usecase.api e)))) ∧
    -- all three steps succeed: then, and only then, Commit is called
    (oms.CreateOrder txCtx order hB = .returned none →
      oms.CreateOutboxMessage txCtx order (hB ++ [Event.CreateOrder txCtx order]) =
        .returned none →
      oms.DeleteItems txCtx userID info.Items
        (hB ++ [Event.CreateOrder txCtx order, Event.CreateOutboxMessage txCtx order]) =
          .returned none →
      ∃ rest : Trace,
        (usecase.CreateOrder oms ctx userID info h).2 =
          hB ++ [Event.CreateOrder txCtx order, Event.CreateOutboxMessage txCtx order,
            Event.DeleteItems txCtx userID info.Items, Event.Commit tx ctx] ++ rest ∧
        ((rest = [] ∧
            (usecase.CreateOrder oms ctx userID info h).1 = .returned (some order, none)) ∨
          (rest = [Event.Rollback tx ctx] ∧
            ∃ err : GoError,
              (usecase.CreateOrder oms ctx userID info h).1 = .returned (none, some err)))) ∧
    (∃ news : Trace,
      (usecase.CreateOrder oms ctx userID info h).2 = hB ++ news ∧
      ((∃ c, Event.Commit tx c ∈ news) →
        oms.CreateOrder txCtx order hB = .returned none ∧
        oms.CreateOutboxMessage txCtx order (hB ++ [Event.CreateOrder txCtx order]) =
          .returned none ∧
        oms.DeleteItems txCtx userID info.Items
          (hB ++ [Event.CreateOrder txCtx order, Event.CreateOutboxMessage txCtx order]) =
            .returned none)) := by
  have hB2 : hB = begun m ctx usecase.txOptions
      (h ++ [Event.ReserveStocks ctx userID info.Items]) := by
    rw [htrace]
    simp [begun, txOptionsOf, usecase.txOptions, WithAccessMode, WithIsoLevel,
      WithDeferrableMode, defaultTxOptions]
  clear htrace
  subst horder hscope hB2
  rw [CreateOrder_in_transaction d m oms ctx userID info tx h hTM hres hfresh hbegin]
  refine ⟨?_, ?_, ?_, ?_, ?_⟩
  · intro e h1
    rw [CreateOrder_fn_first_fails oms _ userID info _ _ _ (by simp) h1]
    obtain ⟨x, hx, hxe⟩ := deferred_of_failure d tx ctx (.returned (some e))
      (begun m ctx usecase.txOptions (h ++ [Event.ReserveStocks ctx userID info.Items]) ++
        [Event.CreateOrder (txScope ctx tx) (usecase.newOrder oms userID info h)]) (by simp)
    rw [hx]
    refine ⟨by simp, ⟨_, rfl⟩, fun hr => ?_⟩
    rw [hxe e rfl hr]
  · intro e h1 h2
    rw [CreateOrder_fn_second_fails oms _ userID info _ _ _ (by simp) h1 h2]
    obtain ⟨x, hx, hxe⟩ := deferred_of_failure d tx ctx (.returned (some e))
      (begun m ctx usecase.txOptions (h ++ [Event.ReserveStocks ctx userID info.Items]) ++
        [Event.CreateOrder (txScope ctx tx) (usecase.newOrder oms userID info h),
          Event.CreateOutboxMessage (txScope ctx tx) (usecase.newOrder oms userID info h)])
      (by simp)
    rw [hx]
    refine ⟨by simp, ⟨_, rfl⟩, fun hr => ?_⟩
    rw [hxe e rfl hr]
  · intro e h1 h2 h3
    rw [CreateOrder_fn_third oms _ userID info _ _ h1 h2, h3]
    obtain ⟨x, hx, hxe⟩ := deferred_of_failure d tx ctx (.returned (some e))
      (begun m ctx usecase.txOptions (h ++ [Event.ReserveStocks ctx userID info.Items]) ++
        [Event.CreateOrder (txScope ctx tx) (usecase.newOrder oms userID info h),
          Event.CreateOutboxMessage (txScope ctx tx) (usecase.newOrder oms userID info h),
          Event.DeleteItems (txScope ctx tx) userID info.Items])
      (by simp)
    rw [hx]
    refine ⟨by simp, ⟨_, rfl⟩, fun hr => ?_⟩
    rw [hxe e rfl hr]
  · intro h1 h2 h3
    rw [CreateOrder_fn_third oms _ userID info _ _ h1 h2, h3]
    cases hc : d.Commit tx ctx
        (begun m ctx usecase.txOptions (h ++ [Event.ReserveStocks ctx userID info.Items]) ++
          [Event.CreateOrder (txScope ctx tx) (usecase.newOrder oms userID info h),
            Event.CreateOutboxMessage (txScope ctx tx) (usecase.newOrder oms userID info h),
            Event.DeleteItems (txScope ctx tx) userID info.Items]) with
    | none =>
      rw [deferred_of_commit_ok d tx ctx _ rfl hc]
      exact ⟨[], by simp, Or.inl ⟨rfl, rfl⟩⟩
    | some c =>
      obtain ⟨x, hx, _⟩ := deferred_of_commit_failure d tx ctx _ c hc
      rw [hx]
      exact ⟨[Event.Rollback tx ctx], by simp, Or.inr ⟨rfl, _, rfl⟩⟩
  · by_cases h1 : oms.CreateOrder (txScope ctx tx) (usecase.newOrder oms userID info h)
        (begun m ctx usecase.txOptions (h ++ [Event.ReserveStocks ctx userID info.Items]))
        = .returned none
    · by_cases h2 : oms.CreateOutboxMessage (txScope ctx tx)
          (usecase.newOrder oms userID info h)
          (begun m ctx usecase.txOptions (h ++ [Event.ReserveStocks ctx userID info.Items]) ++
            [Event.CreateOrder (txScope ctx tx) (usecase.newOrder oms userID info h)])
          = .returned none
      · by_cases h3 : oms.DeleteItems (txScope ctx tx) userID info.Items
            (begun m ctx usecase.txOptions
                (h ++ [Event.ReserveStocks ctx userID info.Items]) ++
              [Event.CreateOrder (txScope ctx tx) (usecase.newOrder oms userID info h),
                Event.CreateOutboxMessage (txScope ctx tx)
                  (usecase.newOrder oms userID info h)])
            = .returned none
        · obtain ⟨release, hrel, _⟩ := deferred_release d tx ctx
            (usecase.CreateOrder_fn oms (usecase.newOrder oms userID info h) userID info
              (txScope ctx tx)
              (begun m ctx usecase.txOptions
                (h ++ [Event.ReserveStocks ctx userID info.Items])))
          refine ⟨[Event.CreateOrder (txScope ctx tx) (usecase.newOrder oms userID info h),
            Event.CreateOutboxMessage (txScope ctx tx) (usecase.newOrder oms userID info h),
            Event.DeleteItems (txScope ctx tx) userID info.Items] ++ release, ?_,
            fun _ => ⟨h1, h2, h3⟩⟩
          rw [CreateOrder_fn_third oms _ userID info _ _ h1 h2] at hrel ⊢
          generalize runTransaction_deferred d tx ctx _ = res at hrel ⊢
          obtain ⟨out, t⟩ := res
          simp only at hrel
          subst hrel
          cases out with
          | panicked v => simp
          | returned err => cases err <;> simp
        · rw [CreateOrder_fn_third oms _ userID info _ _ h1 h2]
          obtain ⟨x, hx, _⟩ := deferred_of_failure d tx ctx _
            (begun m ctx usecase.txOptions
                (h ++ [Event.ReserveStocks ctx userID info.Items]) ++
              [Event.CreateOrder (txScope ctx tx) (usecase.newOrder oms userID info h),
                Event.CreateOutboxMessage (txScope ctx tx)
                  (usecase.newOrder oms userID info h),
                Event.DeleteItems (txScope ctx tx) userID info.Items]) h3
          rw [hx]
          exact ⟨[Event.CreateOrder (txScope ctx tx) (usecase.newOrder oms userID info h),
            Event.CreateOutboxMessage (txScope ctx tx) (usecase.newOrder oms userID info h),
            Event.DeleteItems (txScope ctx tx) userID info.Items, Event.Rollback tx ctx],
            by simp, by simp⟩
      · rw [CreateOrder_fn_second_fails oms _ userID info _ _ _ h2 h1 rfl]
        obtain ⟨x, hx, _⟩ := deferred_of_failure d tx ctx _
          (begun m ctx usecase.txOptions
              (h ++ [Event.ReserveStocks ctx userID info.Items]) ++
            [Event.CreateOrder (txScope ctx tx) (usecase.newOrder oms userID info h),
              Event.CreateOutboxMessage (txScope ctx tx)
                (usecase.newOrder oms userID info h)]) h2
        rw [hx]
        exact ⟨[Event.CreateOrder (txScope ctx tx) (usecase.newOrder oms userID info h),
          Event.CreateOutboxMessage (txScope ctx tx) (usecase.newOrder oms userID info h),
          Event.Rollback tx ctx], by simp, by simp⟩
    · rw [CreateOrder_fn_first_fails oms _ userID info _ _ _ h1 rfl]
      obtain ⟨x, hx, _⟩ := deferred_of_failure d tx ctx _
        (begun m ctx usecase.txOptions
            (h ++ [Event.ReserveStocks ctx userID info.Items]) ++
          [Event.CreateOrder (txScope ctx tx) (usecase.newOrder oms userID info h)]) h1
      rw [hx]
      exact ⟨[Event.CreateOrder (txScope ctx tx) (usecase.newOrder oms userID info h),
        Event.Rollback tx ctx], by simp, by simp⟩

/-- Witness of C9: the insert of the outbox message fails with `boom` after the insert of
the order succeeded; the cart is not touched, the transaction is rolled back, and the
caller gets no order and the wrapped `boom`. -/
theorem C9_witness :
    activeTx Context.Background = none ∧
    outboxFailDeps.ReserveStocks Context.Background 5 info1.Items [] = .returned none ∧
    (usecase.CreateOrder outboxFailDeps Context.Background 5 info1 []).2 =
      [Event.ReserveStocks Context.Background 5 info1.Items,
        Event.BeginTx ⟨1⟩ Context.Background ⟨.ReadCommitted, .ReadWrite, .NotDeferrable⟩,
        Event.CreateOrder (txScope Context.Background ⟨7⟩) order1,
        Event.CreateOutboxMessage (txScope Context.Background ⟨7⟩) order1,
        Event.Rollback ⟨7⟩ Context.Background] ∧
    (usecase.CreateOrder outboxFailDeps Context.Background 5 info1 []).1 =
      .returned (none, some (pkgerrors.Wrap usecase.api (.foreign 9 "boom"))) :=
  have hmain := (C9_create_order_all_or_nothing okDriver tm1 outboxFailDeps
    Context.Background 5 info1 ⟨7⟩ [] order1 (txScope Context.Background ⟨7⟩)
    [Event.ReserveStocks Context.Background 5 info1.Items,
      Event.BeginTx ⟨1⟩ Context.Background ⟨.ReadCommitted, .ReadWrite, .NotDeferrable⟩]
    rfl rfl (by decide) rfl rfl rfl rfl).2.1 (.foreign 9 "boom") rfl rfl
  ⟨by decide, rfl, hmain.1, hmain.2.2 rfl⟩

/-- C10: `GetQueryEngine` returns the Transaction Handle a scope carries when a
transaction is active in it, and the raw connection of the manager otherwise.  The scope
that a `RunTransaction` on a scope without transaction derives for its operation carries
the handle that this call began: `GetQueryEngine` returns that handle on it, and every
`RunTransaction` on it is a nested call that just runs its operation. -/
theorem C10_query_engine_follows_scope (m : TransactionManager) (ctx : Context) :
    (∀ tx : Transaction, activeTx ctx = some tx → m.GetQueryEngine ctx = .transaction tx) ∧
    (activeTx ctx = none → m.GetQueryEngine ctx = .connection m.connection) ∧
    (∀ (d : Driver) (fn : Operation) (opts : List TransactionOption) (h : Trace)
        (tx : Transaction),
      activeTx ctx = none →
      d.BeginTx m.connection ctx (txOptionsOf opts) h = .ok tx →
      m.RunTransaction d ctx fn opts h =
          runTransaction_deferred d tx ctx (fn (txScope ctx tx) (begun m ctx opts h)) ∧
        m.GetQueryEngine (txScope ctx tx) = .transaction tx ∧
        ∀ (g : Operation) (opts2 : List TransactionOption) (t : Trace),
          m.RunTransaction d (txScope ctx tx) g opts2 t = g (txScope ctx tx) t) := by
  have hget : ∀ (c : Context) (tx : Transaction),
      activeTx c = some tx → m.GetQueryEngine c = .transaction tx := by
    intro c tx hactive
    unfold activeTx at hactive
    unfold TransactionManager.GetQueryEngine
    cases hv : c.Value key.txKey with
    | none => simp [hv, asTransaction] at hactive
    | some v =>
      cases v with
      | transaction t =>
        simp only [hv, asTransaction, Option.some.injEq] at hactive
        simp [asQueryEngine, hactive]
      | other n => simp [hv, asTransaction] at hactive
  refine ⟨hget ctx, ?_, ?_⟩
  · intro hfresh
    unfold activeTx at hfresh
    unfold TransactionManager.GetQueryEngine
    cases hv : ctx.Value key.txKey with
    | none => simp [asQueryEngine]
    | some v =>
      cases v with
      | transaction t => simp [hv, asTransaction] at hfresh
      | other n => simp [asQueryEngine]
  · intro d fn opts h tx hfresh hbegin
    exact ⟨RunTransaction_fresh d m ctx tx fn opts h hfresh hbegin,
      hget _ tx (activeTx_WithValue ctx tx),
      fun g opts2 t => RunTransaction_nested d m _ tx g opts2 t (activeTx_WithValue ctx tx)⟩

/-- Witness of C10: a scope that carries transaction 3, the background scope, and the
scope derived from the background scope for transaction 7. -/
theorem C10_witness :
    activeTx ctxInTx = some ⟨3⟩ ∧
    tm1.GetQueryEngine ctxInTx = .transaction ⟨3⟩ ∧
    activeTx Context.Background = none ∧
    tm1.GetQueryEngine Context.Background = .connection ⟨1⟩ ∧
    okDriver.BeginTx tm1.connection Context.Background (txOptionsOf []) [] = .ok ⟨7⟩ ∧
    tm1.GetQueryEngine (txScope Context.Background ⟨7⟩) = .transaction ⟨7⟩ ∧
    tm1.RunTransaction okDriver (txScope Context.Background ⟨7⟩) opFail [] [] =
      opFail (txScope Context.Background ⟨7⟩) [] :=
  have hbg := C10_query_engine_follows_scope tm1 Context.Background
  have hin := (hbg.2.2 okDriver opOk [] [] ⟨7⟩ (by decide) rfl).2
  ⟨by decide, (C10_query_engine_follows_scope tm1 ctxInTx).1 ⟨3⟩ (by decide), by decide,
    hbg.2.1 (by decide), rfl, hin.1, hin.2 opFail [] []⟩

/-- No argument list is the one-element list that holds it as a slice. -/
theorem slice_singleton_ne (args : List SqlValue) : [SqlValue.slice args] ≠ args := by
  intro heq
  have hsize := congrArg sizeOf heq
  simp at hsize
  omega

/-- When the builder yields a query without error, `Getx` hands the driver the text and
the arguments, each argument as its own parameter. -/
theorem Getx_of_built (sd : SqlDriver) (t : Transaction) (dest : Nat) (sqlizer : Sqlizer)
    (h : SqlTrace) (hbuilt : sqlizer.ToSql.err = none) :
    (t.Getx sd dest sqlizer h).2 =
      h ++ [SqlCall.Get t dest sqlizer.ToSql.query sqlizer.ToSql.args] := by
  simp [Transaction.Getx, hbuilt]

/-- When the builder yields a query without error, `Execx` hands the driver the text and
the arguments, each argument as its own parameter. -/
theorem Execx_of_built (sd : SqlDriver) (t : Transaction) (sqlizer : Sqlizer)
    (h : SqlTrace) (hbuilt : sqlizer.ToSql.err = none) :
    (t.Execx sd sqlizer h).2 =
      h ++ [SqlCall.Exec t sqlizer.ToSql.query sqlizer.ToSql.args] := by
  simp [Transaction.Execx, hbuilt]

/-- When the builder yields a query without error, `Selectx` hands the driver the text and
a single parameter, the slice of all the arguments; that list is never the argument
list. -/
theorem Selectx_of_built (sd : SqlDriver) (t : Transaction) (dest : Nat) (sqlizer : Sqlizer)
    (h : SqlTrace) (hbuilt : sqlizer.ToSql.err = none) :
    (t.Selectx sd dest sqlizer h).2 =
        h ++ [SqlCall.Select t dest sqlizer.ToSql.query [SqlValue.slice sqlizer.ToSql.args]] ∧
      (t.Selectx sd dest sqlizer h).2 ≠
        h ++ [SqlCall.Select t dest sqlizer.ToSql.query sqlizer.ToSql.args] := by
  have hrun : (t.Selectx sd dest sqlizer h).2 =
      h ++ [SqlCall.Select t dest sqlizer.ToSql.query [SqlValue.slice sqlizer.ToSql.args]] := by
    simp [Transaction.Selectx, hbuilt]
  refine ⟨hrun, ?_⟩
  rw [hrun]
  intro heq
  have hlast := List.append_cancel_left heq
  simp only [List.cons.injEq, SqlCall.Select.injEq, true_and, and_true] at hlast
  exact slice_singleton_ne _ hlast

/-- When the builder fails, each of the three query methods returns the error of the
builder and makes no driver call. -/
theorem query_methods_of_builder_error (sd : SqlDriver) (t : Transaction) (dest : Nat)
    (sqlizer : Sqlizer) (h : SqlTrace) (err : GoError)
    (hfail : sqlizer.ToSql.err = some err) :
    t.Getx sd dest sqlizer h = (some err, h) ∧
    t.Selectx sd dest sqlizer h = (some err, h) ∧
    t.Execx sd sqlizer h = ((⟨""⟩, some err), h) := by
  simp [Transaction.Getx, Transaction.Selectx, Transaction.Execx, hfail]

/-- C11, the code at a builder that yields a query with two placeholders and the
arguments 5 and `new`: `Getx` and `Execx` hand the driver the two arguments as two
positional parameters, but `Selectx` hands it a single parameter, the slice that holds
both, which is not the argument list of the builder.  With a failing builder the three
methods return its error and make no driver call. -/
theorem C11_selectx_hands_args_as_one_parameter :
    twoArgs.ToSql.err = none ∧
    (Transaction.Getx okSqlDriver ⟨7⟩ 0 twoArgs []).2 =
      [SqlCall.Get ⟨7⟩ 0 twoArgs.ToSql.query [.int 5, .text "new"]] ∧
    (Transaction.Execx okSqlDriver ⟨7⟩ twoArgs []).2 =
      [SqlCall.Exec ⟨7⟩ twoArgs.ToSql.query [.int 5, .text "new"]] ∧
    (Transaction.Selectx okSqlDriver ⟨7⟩ 0 twoArgs []).2 =
      [SqlCall.Select ⟨7⟩ 0 twoArgs.ToSql.query [.slice [.int 5, .text "new"]]] ∧
    (Transaction.Selectx okSqlDriver ⟨7⟩ 0 twoArgs []).2 ≠
      [SqlCall.Select ⟨7⟩ 0 twoArgs.ToSql.query twoArgs.ToSql.args] ∧
    Transaction.Getx okSqlDriver ⟨7⟩ 0 failingBuilder [] = (some (.foreign 4 "bad builder"), []) ∧
    Transaction.Selectx okSqlDriver ⟨7⟩ 0 failingBuilder [] =
      (some (.foreign 4 "bad builder"), []) ∧
    Transaction.Execx okSqlDriver ⟨7⟩ failingBuilder [] =
      ((⟨""⟩, some (.foreign 4 "bad builder")), []) :=
  ⟨rfl, rfl, rfl, rfl, (Selectx_of_built okSqlDriver ⟨7⟩ 0 twoArgs [] rfl).2, rfl, rfl, rfl⟩

end OMS

